import Mathlib

/-!
Shallow embedding of `src/app.py` (Streamlit world-clock dashboard with a
Telegram `/check` command), together with a model of the small slice of the
Python standard library / `pytz` that the program calls into.

Modelling conventions:
* A wall-clock instant is an integer count of microseconds since the Unix
  epoch (Python's `datetime.now` has microsecond resolution).
* `pytz` is modelled as a database `String → Option Int` mapping an IANA
  identifier to a UTC offset in seconds; `none` models
  `pytz.UnknownTimeZoneError`.  Daylight-saving is not modelled: the claims
  under study quantify over arbitrary databases, so a fixed offset per
  resolution suffices.
* Civil dates are computed from epoch days with the standard
  days-to-civil algorithm (as the CPython `datetime` library does).
-/

set_option autoImplicit false

/-- Civil date (year, month, day) of a count of days since 1970-01-01,
proleptic Gregorian calendar. -/
def civilFromDays (z0 : Int) : Int × Nat × Nat :=
  let z := z0 + 719468
  let era : Int := z.ediv 146097
  let doe : Nat := (z.emod 146097).toNat
  let yoe : Nat := (doe - doe / 1460 + doe / 36524 - doe / 146096) / 365
  let doy : Nat := doe - (365 * yoe + yoe / 4 - yoe / 100)
  let mp : Nat := (5 * doy + 2) / 153
  let d : Nat := doy - (153 * mp + 2) / 5 + 1
  let m : Nat := if mp < 10 then mp + 3 else mp - 9
  (era * 400 + yoe + (if m ≤ 2 then 1 else 0), m, d)

/-- Model of a Python timezone-aware `datetime` value: the fields the
program reads (via `strftime` and `isoformat`). `weekday` uses Python's
convention, Monday = 0. `utcoffset` is in seconds. -/
structure PyDateTime where
  year : Int
  month : Nat
  day : Nat
  hour : Nat
  minute : Nat
  second : Nat
  microsecond : Nat
  weekday : Nat
  utcoffset : Int
  deriving DecidableEq, Repr

/-- Build the aware datetime for a zone of fixed offset `off` (seconds) from
local seconds `secs` and the sub-second microsecond count. -/
def datetimeOfSeconds (off secs : Int) (micro : Nat) : PyDateTime :=
  let days := secs.ediv 86400
  let sod := (secs.emod 86400).toNat
  let c := civilFromDays days
  { year := c.1, month := c.2.1, day := c.2.2,
    hour := sod / 3600, minute := sod % 3600 / 60, second := sod % 60,
    microsecond := micro, weekday := ((days + 3).emod 7).toNat,
    utcoffset := off }

/-- Model of `datetime.now(tz)` for a zone of fixed offset `off`, at the
instant `t` microseconds since the Unix epoch. -/
def datetimeNow (off t : Int) : PyDateTime :=
  datetimeOfSeconds off (t.ediv 1000000 + off) (t.emod 1000000).toNat

/-- Zero-padded two-digit decimal rendering, as `strftime` codes
`%H` `%M` `%S` `%d` produce. -/
def pad2 (n : Nat) : String :=
  if n < 10 then "0" ++ toString n else toString n

/-- Zero-padded four-digit rendering (ISO year field). -/
def pad4 (n : Nat) : String :=
  if n < 10 then "000" ++ toString n
  else if n < 100 then "00" ++ toString n
  else if n < 1000 then "0" ++ toString n
  else toString n

/-- Zero-padded six-digit rendering (ISO microsecond field). -/
def pad6 (n : Nat) : String :=
  let s := toString n
  String.mk (List.replicate (6 - s.length) (Char.ofNat 48)) ++ s

/-- Weekday names as `strftime` code `%A` renders them (Monday = 0). -/
def weekdayName (w : Nat) : String :=
  [ "Monday", "Tuesday", "Wednesday", "Thursday",
    "Friday", "Saturday", "Sunday" ].getD w "Monday"

/-- Month names as `strftime` code `%B` renders them (1-based). -/
def monthName (m : Nat) : String :=
  [ "January", "February", "March", "April", "May", "June", "July",
    "August", "September", "October", "November", "December"
  ].getD (m - 1) "January"

/-- A single apostrophe character as a string. -/
def squote : String := String.singleton (Char.ofNat 39)

/-- Model of `str(e)` for `pytz.UnknownTimeZoneError(name)`: the `repr` of
the unresolvable identifier, i.e. the name wrapped in single quotes. -/
def unknownTzMessage (tzName : String) : String :=
  squote ++ tzName ++ squote

/-- Model of `datetime.isoformat()` on an aware datetime: the microsecond
part is printed only when nonzero, and the UTC offset as `±HH:MM`. -/
def pyIsoformat (dt : PyDateTime) : String :=
  let offAbs := dt.utcoffset.natAbs
  pad4 dt.year.toNat ++ "-" ++ pad2 dt.month ++ "-" ++ pad2 dt.day ++ "T" ++
    pad2 dt.hour ++ ":" ++ pad2 dt.minute ++ ":" ++ pad2 dt.second ++
    (if dt.microsecond = 0 then "" else "." ++ pad6 dt.microsecond) ++
    (if dt.utcoffset < 0 then "-" else "+") ++
    pad2 (offAbs / 3600) ++ ":" ++ pad2 (offAbs % 3600 / 60)

/-- Model of the `pytz` zone database used for concrete witnesses: the
zones the program's `DEFAULT_CITIES` mentions, at their standard offsets
(seconds east of UTC); every other name is unresolvable. -/
def pytzDB (name : String) : Option Int :=
  if name = "UTC" then some 0
  else if name = "Asia/Jakarta" then some 25200
  else if name = "Asia/Tokyo" then some 32400
  else if name = "America/New_York" then some (-18000)
  else if name = "Australia/Sydney" then some 36000
  else if name = "Europe/London" then some 0
  else if name = "Europe/Berlin" then some 3600
  else none

/-! Source constants (`src/app.py` lines 48-57). -/

def DEFAULT_CITIES : List (String × String) :=
  [ ("WIB (Jakarta)", "Asia/Jakarta"),
    ("Tokyo", "Asia/Tokyo"),
    ("New York", "America/New_York"),
    ("Sydney", "Australia/Sydney"),
    ("London", "Europe/London"),
    ("UTC", "UTC") ]

def APP_TITLE : String := "World Clock Dashboard"

/-! Source utility functions (`src/app.py` lines 61-82).  Python `dict`s are
embedded as association lists in insertion order; the clock and the zone
database are explicit parameters. -/

/-- `get_time_for_tz` (line 61): resolve the zone and read the current
instant in it; `none` models the `UnknownTimeZoneError` escape. -/
def get_time_for_tz (db : String → Option Int) (t : Int) (tz_name : String) :
    Option PyDateTime :=
  (db tz_name).map (fun off => datetimeNow off t)

/-- `format_time` (line 66): `dt.strftime("%H:%M:%S")`. -/
def format_time (dt : PyDateTime) : String :=
  pad2 dt.hour ++ ":" ++ pad2 dt.minute ++ ":" ++ pad2 dt.second

/-- `format_date` (line 70): `dt.strftime("%A, %d %B %Y")`. -/
def format_date (dt : PyDateTime) : String :=
  weekdayName dt.weekday ++ ", " ++ pad2 dt.day ++ " " ++
    monthName dt.month ++ " " ++ toString dt.year

/-- One value of the dict `build_times_dict` stores per label. -/
structure TimeSnapshot where
  time : String
  date : String
  iso : String
  deriving DecidableEq, Repr

/-- `build_times_dict` (lines 74-82): format every entry of the mapping,
degrading an unresolvable entry to the `"Invalid TZ"` sentinel with the
error message text in the date field. -/
def build_times_dict (db : String → Option Int) (t : Int)
    (timezones : List (String × String)) : List (String × TimeSnapshot) :=
  timezones.map (fun p =>
    match get_time_for_tz db t p.2 with
    | some dt =>
        (p.1, { time := format_time dt, date := format_date dt,
                iso := pyIsoformat dt })
    | none =>
        (p.1, { time := "Invalid TZ", date := unknownTzMessage p.2,
                iso := "" }))

/-- Value of a two-digit decimal string fragment, when both characters are
digits. -/
def twoDigitVal (a b : Char) : Option Nat :=
  if a.isDigit && b.isDigit then
    some ((a.toNat - 48) * 10 + (b.toNat - 48))
  else none

/-- Decides whether a string matches the 24-hour pattern `HH:MM:SS`:
eight characters, digits in the right places, colons at positions 2 and 5,
hour below 24 and minute and second below 60. -/
def matchesHHMMSS (s : String) : Bool :=
  match s.data with
  | [a, b, c1, c, d, c2, e, f] =>
    c1 == Char.ofNat 58 && c2 == Char.ofNat 58 &&
    (match twoDigitVal a b, twoDigitVal c d, twoDigitVal e f with
     | some hh, some mm, some ss => hh < 24 && mm < 60 && ss < 60
     | _, _, _ => false)
  | _ => false

/-! The Telegram `/check` handler (`src/app.py` lines 94-100).  The source
builds a list `lines` starting with the title line, appends one line per
entry of the freshly built times dict, and joins with newlines. -/

/-- The `lines` list the `/check` handler builds (lines 96-98). -/
def check_lines (db : String → Option Int) (t : Int)
    (tracked : List (String × String)) : List String :=
  ("World Clock — " ++ APP_TITLE) ::
    (build_times_dict db t tracked).map
      (fun p => p.1 ++ ": " ++ p.2.time ++ " (" ++ p.2.date ++ ")")

/-- The reply text of the `/check` handler (line 99). -/
def check_command_text (db : String → Option Int) (t : Int)
    (tracked : List (String × String)) : String :=
  String.intercalate "\n" (check_lines db t tracked)

/-! The sidebar "Add custom timezone" action (`src/app.py` lines 152-159)
and the Python `dict` assignment it performs. -/

/-- Python `d[k]` lookup on an insertion-ordered dict embedded as an
association list. -/
def dictGet (m : List (String × String)) (k : String) : Option String :=
  (m.find? (fun p => p.1 == k)).map Prod.snd

/-- Python `d[k] = v` on an insertion-ordered dict embedded as an
association list: overwrite in place when the key exists, else append. -/
def dictSet (m : List (String × String)) (k v : String) :
    List (String × String) :=
  if m.any (fun p => p.1 == k) then
    m.map (fun p => if p.1 == k then (k, v) else p)
  else m ++ [(k, v)]

/-- Model of Python's `str.strip()`: drop whitespace from both ends
(executable by kernel reduction, unlike `String.trim`). -/
def pyStrip (s : String) : String :=
  String.mk
    (((s.data.dropWhile Char.isWhitespace).reverse.dropWhile
        Char.isWhitespace).reverse)

/-- Outcome surfaced in the sidebar by the add action. -/
inductive SidebarMsg where
  | success (key tz : String)
  | invalidTz
  deriving DecidableEq, Repr

/-- The add-custom-timezone block (lines 152-159): when the button was
pressed and the stripped identifier is nonempty, validate it against the
zone database; on success store it under `custom_label.strip() or
custom_tz.strip()` and report success, on failure leave the mapping
unchanged and report the error. -/
def add_custom_timezone (db : String → Option Int)
    (cities : List (String × String)) (custom_label custom_tz : String)
    (add_btn : Bool) : List (String × String) × Option SidebarMsg :=
  if add_btn && pyStrip custom_tz != "" then
    match db (pyStrip custom_tz) with
    | some _ =>
        let key := if pyStrip custom_label = "" then pyStrip custom_tz
                   else pyStrip custom_label
        (dictSet cities key (pyStrip custom_tz),
         some (SidebarMsg.success key custom_tz))
    | none => (cities, some SidebarMsg.invalidTz)
  else (cities, none)

/-- `timezones_to_display` (line 162): the dict comprehension
`{k: DEFAULT_CITIES[k] for k in selection}` (selection entries always come
from the mapping's key set). -/
def timezones_to_display (cities : List (String × String))
    (selection : List String) : List (String × String) :=
  selection.filterMap (fun k => (dictGet cities k).map (fun v => (k, v)))

/-! A small transition system over the dashboard's process-wide state, for
the bot-snapshot claim.  `start_telegram_bot` (lines 86-115) closes the
`/check` handler over the `tracked_timezones` dict passed at start time
(line 95); the dashboard rebuilds `timezones_to_display` as a fresh dict on
every rerun (line 162), so the captured dict is never mutated afterwards. -/

/-- The mutable process state the claims observe: the `DEFAULT_CITIES`
mapping, the sidebar multiselect, and the mapping captured by the bot's
`/check` closure (if the bot was started). -/
structure AppState where
  cities : List (String × String)
  selection : List String
  botCaptured : Option (List (String × String))
  deriving DecidableEq, Repr

/-- User interactions that mutate the observed state across reruns. -/
inductive Event where
  | setSelection (sel : List String)
  | addCustom (labelText tzText : String)
  | startBot
  deriving DecidableEq, Repr

/-- One dashboard rerun handling one interaction. -/
def step (db : String → Option Int) (s : AppState) (e : Event) : AppState :=
  match e with
  | Event.setSelection sel => { s with selection := sel }
  | Event.addCustom labelText tzText =>
      { s with cities :=
          (add_custom_timezone db s.cities labelText tzText true).1 }
  | Event.startBot =>
      { s with botCaptured := some (timezones_to_display s.cities s.selection) }

/-- A sequence of reruns. -/
def steps (db : String → Option Int) (s : AppState) (es : List Event) :
    AppState :=
  es.foldl (step db) s

/-- The lines a `/check` issued now would reply with (`none` when no bot
is running). -/
def botCheckLines (db : String → Option Int) (t : Int) (s : AppState) :
    Option (List String) :=
  s.botCaptured.map (fun m => check_lines db t m)

/-! Alarm checker.  Modelled from the spec: the repository's second
revision adds an alarm feature whose code is not under `src/`; only the
spec (sections 3 and 4.2) describes it.  Per the spec, an `AlarmEntry`
holds a label, an IANA identifier and a target `"HH:MM"` string, and
`checkAlarms` re-derives the current `HH:MM` in each alarm's zone and
keeps, in original list order, exactly the alarms whose current `HH:MM`
equals `targetTime` by exact string equality. -/

/-- Modelled from the spec: an alarm list entry (spec section 3). -/
structure AlarmEntry where
  label : String
  identifier : String
  targetTime : String
  deriving DecidableEq, Repr

/-- The current `HH:MM` string in an alarm's zone, when its identifier
resolves. -/
def currentHM (db : String → Option Int) (t : Int) (a : AlarmEntry) :
    Option String :=
  (db a.identifier).map (fun off =>
    let dt := datetimeNow off t
    pad2 dt.hour ++ ":" ++ pad2 dt.minute)

/-- Modelled from the spec: `checkAlarms` (spec section 4.2), the linear
scan keeping the alarms whose zone's current `HH:MM` equals their stored
target string. -/
def checkAlarms (db : String → Option Int) (t : Int)
    (alarms : List AlarmEntry) : List AlarmEntry :=
  alarms.filter (fun a =>
    match currentHM db t a with
    | some hm => hm == a.targetTime
    | none => false)

/-! Helper lemmas about the formatting primitives. -/

theorem pad2_data : ∀ n, n < 100 →
    (pad2 n).data = [Nat.digitChar (n / 10), Nat.digitChar (n % 10)] := by
  decide

theorem twoDigitVal_digitChar : ∀ n, n < 100 →
    twoDigitVal (Nat.digitChar (n / 10)) (Nat.digitChar (n % 10)) = some n := by
  decide

theorem matchesHHMMSS_parts (hh mm ss : Nat)
    (h1 : hh < 24) (h2 : mm < 60) (h3 : ss < 60) :
    matchesHHMMSS (pad2 hh ++ ":" ++ pad2 mm ++ ":" ++ pad2 ss) = true := by
  have d1 := pad2_data hh (by omega)
  have d2 := pad2_data mm (by omega)
  have d3 := pad2_data ss (by omega)
  have hdata : (pad2 hh ++ ":" ++ pad2 mm ++ ":" ++ pad2 ss).data
      = [Nat.digitChar (hh / 10), Nat.digitChar (hh % 10), Char.ofNat 58,
         Nat.digitChar (mm / 10), Nat.digitChar (mm % 10), Char.ofNat 58,
         Nat.digitChar (ss / 10), Nat.digitChar (ss % 10)] := by
    simp [String.data_append, d1, d2, d3]
  unfold matchesHHMMSS
  rw [hdata]
  simp [twoDigitVal_digitChar hh (by omega), twoDigitVal_digitChar mm (by omega),
    twoDigitVal_digitChar ss (by omega), h1, h2, h3]

theorem datetimeOfSeconds_hour_lt (off secs : Int) (micro : Nat) :
    (datetimeOfSeconds off secs micro).hour < 24 := by
  have h0 : 0 ≤ secs.emod 86400 := Int.emod_nonneg secs (by norm_num)
  have h1 : secs.emod 86400 < 86400 := Int.emod_lt_of_pos secs (by norm_num)
  have h2 : (secs.emod 86400).toNat < 86400 := by omega
  exact (Nat.div_lt_iff_lt_mul (by norm_num)).2 (by omega)

theorem datetimeOfSeconds_minute_lt (off secs : Int) (micro : Nat) :
    (datetimeOfSeconds off secs micro).minute < 60 := by
  have h1 : (secs.emod 86400).toNat % 3600 < 3600 :=
    Nat.mod_lt _ (by norm_num)
  exact (Nat.div_lt_iff_lt_mul (by norm_num)).2 (by omega)

theorem datetimeOfSeconds_second_lt (off secs : Int) (micro : Nat) :
    (datetimeOfSeconds off secs micro).second < 60 :=
  Nat.mod_lt _ (by norm_num)

theorem format_time_matchesHHMMSS (off t : Int) :
    matchesHHMMSS (format_time (datetimeNow off t)) = true := by
  unfold datetimeNow format_time
  exact matchesHHMMSS_parts _ _ _ (datetimeOfSeconds_hour_lt _ _ _)
    (datetimeOfSeconds_minute_lt _ _ _) (datetimeOfSeconds_second_lt _ _ _)

theorem format_date_ne_empty (dt : PyDateTime) : format_date dt ≠ "" := by
  intro h
  have hlen : (format_date dt).length = 0 := by rw [h]; rfl
  rw [format_date] at hlen
  simp [String.length_append] at hlen
  exact absurd hlen.1.1.1.1.1.2 (by decide)

theorem build_times_dict_map_fst (db : String → Option Int) (t : Int)
    (tzs : List (String × String)) :
    (build_times_dict db t tzs).map Prod.fst = tzs.map Prod.fst := by
  induction tzs with
  | nil => rfl
  | cons p ps ih =>
    simp only [build_times_dict, List.map_cons] at ih ⊢
    cases get_time_for_tz db t p.2 <;> simpa using ih

theorem find?_overwrite (m : List (String × String)) (k v : String)
    (h : m.any (fun p => p.1 == k) = true) :
    (m.map (fun p => if p.1 == k then (k, v) else p)).find?
      (fun p => p.1 == k) = some (k, v) := by
  induction m with
  | nil => simp at h
  | cons p ps ih =>
    by_cases hp : (p.1 == k) = true
    · rw [List.map_cons, if_pos hp, List.find?_cons_of_pos _ (by simp)]
    · have h2 : (ps.any fun q => q.1 == k) = true := by
        simp only [List.any_cons, hp, Bool.false_or] at h
        exact h
      rw [List.map_cons, if_neg hp,
        List.find?_cons_of_neg (p := fun (q : String × String) => q.1 == k) _ hp]
      exact ih h2

theorem find?_append_fresh (m : List (String × String)) (k v : String)
    (h : m.any (fun p => p.1 == k) = false) :
    (m ++ [(k, v)]).find? (fun p => p.1 == k) = some (k, v) := by
  induction m with
  | nil => rw [List.nil_append, List.find?_cons_of_pos _ (by simp)]
  | cons p ps ih =>
    simp only [List.any_cons, Bool.or_eq_false_iff] at h
    rw [List.cons_append, List.find?_cons_of_neg _ (by simp [h.1])]
    exact ih h.2

theorem dictGet_dictSet (m : List (String × String)) (k v : String) :
    dictGet (dictSet m k v) k = some v := by
  rw [dictSet, dictGet]
  split
  · rename_i h
    rw [find?_overwrite m k v h]
    rfl
  · rename_i h
    rw [find?_append_fresh m k v (Bool.eq_false_iff.mpr h)]
    rfl

theorem any_key_iff_mem (m : List (String × String)) (k : String) :
    m.any (fun p => p.1 == k) = true ↔ k ∈ m.map Prod.fst := by
  simp only [List.any_eq_true, List.mem_map, beq_iff_eq]

theorem dictSet_map_fst_of_mem (m : List (String × String)) (k v : String)
    (h : m.any (fun p => p.1 == k) = true) :
    (dictSet m k v).map Prod.fst = m.map Prod.fst := by
  rw [dictSet, if_pos h, List.map_map]
  apply List.map_congr_left
  intro p hp
  by_cases hpk : (p.1 == k) = true
  · simp only [Function.comp_apply, if_pos hpk]
    exact (eq_of_beq hpk).symm
  · simp only [Function.comp_apply, if_neg hpk]

theorem dictSet_map_fst_of_not_mem (m : List (String × String)) (k v : String)
    (h : ¬ m.any (fun p => p.1 == k) = true) :
    (dictSet m k v).map Prod.fst = m.map Prod.fst ++ [k] := by
  rw [dictSet, if_neg h, List.map_append]
  rfl

theorem dictSet_nodup (m : List (String × String)) (k v : String)
    (h : (m.map Prod.fst).Nodup) : ((dictSet m k v).map Prod.fst).Nodup := by
  by_cases hmem : m.any (fun p => p.1 == k) = true
  · rw [dictSet_map_fst_of_mem m k v hmem]
    exact h
  · rw [dictSet_map_fst_of_not_mem m k v hmem]
    have hk : k ∉ m.map Prod.fst := fun hkm =>
      hmem ((any_key_iff_mem m k).mpr hkm)
    exact List.Nodup.append h (List.nodup_singleton k)
      (fun a ha hb => hk ((List.mem_singleton.mp hb) ▸ ha))

theorem step_botCaptured (db : String → Option Int) (s : AppState) (e : Event)
    (h : e ≠ Event.startBot) : (step db s e).botCaptured = s.botCaptured := by
  cases e with
  | setSelection sel => rfl
  | addCustom labelText tzText => rfl
  | startBot => exact absurd rfl h

theorem steps_botCaptured (db : String → Option Int) (s : AppState)
    (es : List Event) (h : Event.startBot ∉ es) :
    (steps db s es).botCaptured = s.botCaptured := by
  induction es generalizing s with
  | nil => rfl
  | cons e es ih =>
    rw [List.mem_cons, not_or] at h
    rw [steps, List.foldl_cons]
    exact (ih (step db s e) h.2).trans (step_botCaptured db s e (Ne.symm h.1))

/-- C1: for every input mapping whose identifiers all resolve in the zone
database, `build_times_dict` gives every entry a time string matching the
24-hour `HH:MM:SS` pattern and a non-empty date string, and the output
labels are exactly the input labels in the same order. -/
theorem c1_valid_mapping_formats (db : String → Option Int) (t : Int)
    (tzs : List (String × String))
    (hvalid : ∀ p ∈ tzs, (db p.2).isSome = true) :
    (∀ q ∈ build_times_dict db t tzs,
        matchesHHMMSS q.2.time = true ∧ q.2.date ≠ "") ∧
    (build_times_dict db t tzs).map Prod.fst = tzs.map Prod.fst := by
  refine ⟨?_, build_times_dict_map_fst db t tzs⟩
  intro q hq
  rw [build_times_dict, List.mem_map] at hq
  obtain ⟨p, hp, rfl⟩ := hq
  obtain ⟨off, hoff⟩ := Option.isSome_iff_exists.mp (hvalid p hp)
  simp only [get_time_for_tz, hoff, Option.map_some']
  exact ⟨format_time_matchesHHMMSS off t, format_date_ne_empty _⟩

/-- C1 witness: the theorem applied to the mapping
`[("London", "Europe/London"), ("UTC", "UTC")]` at the 2024-01-01 instant. -/
theorem c1_valid_mapping_formats_witness :
    (∀ q ∈ build_times_dict pytzDB 1704067200000000
        [("London", "Europe/London"), ("UTC", "UTC")],
        matchesHHMMSS q.2.time = true ∧ q.2.date ≠ "") ∧
    (build_times_dict pytzDB 1704067200000000
        [("London", "Europe/London"), ("UTC", "UTC")]).map Prod.fst
      = ([("London", "Europe/London"), ("UTC", "UTC")]).map Prod.fst :=
  c1_valid_mapping_formats pytzDB 1704067200000000
    [("London", "Europe/London"), ("UTC", "UTC")] (by decide)

/-- C2: if the entry at index `i` of the mapping has an unresolvable
identifier, `build_times_dict` still returns a snapshot for every entry
(no exception: the output has the input's length), gives entry `i` the
`"Invalid TZ"` sentinel with the error message text as date, and formats
every resolvable entry normally. -/
theorem c2_invalid_entry_degrades_alone (db : String → Option Int) (t : Int)
    (tzs : List (String × String)) (i : Nat) (lab tz : String)
    (hi : tzs[i]? = some (lab, tz)) (hbad : db tz = none) :
    (build_times_dict db t tzs)[i]? =
      some (lab, { time := "Invalid TZ", date := unknownTzMessage tz,
                   iso := "" }) ∧
    (build_times_dict db t tzs).length = tzs.length ∧
    (∀ (j : Nat) (lab2 tz2 : String) (off : Int),
      tzs[j]? = some (lab2, tz2) → db tz2 = some off →
      (build_times_dict db t tzs)[j]? =
        some (lab2, { time := format_time (datetimeNow off t),
                      date := format_date (datetimeNow off t),
                      iso := pyIsoformat (datetimeNow off t) })) := by
  refine ⟨?_, by simp [build_times_dict], ?_⟩
  · rw [build_times_dict, List.getElem?_map, hi]
    simp [get_time_for_tz, hbad]
  · intro j lab2 tz2 off hj hoff
    rw [build_times_dict, List.getElem?_map, hj]
    simp [get_time_for_tz, hoff]

/-- C2 witness: the theorem applied to a three-entry mapping whose middle
identifier `"Not/AZone"` is unresolvable. -/
theorem c2_invalid_entry_degrades_alone_witness :
    (build_times_dict pytzDB 0
        [("London", "Europe/London"), ("Bad", "Not/AZone"), ("UTC", "UTC")])[1]? =
      some ("Bad", { time := "Invalid TZ", date := unknownTzMessage "Not/AZone",
                     iso := "" }) ∧
    (build_times_dict pytzDB 0
        [("London", "Europe/London"), ("Bad", "Not/AZone"), ("UTC", "UTC")]).length
      = ([("London", "Europe/London"), ("Bad", "Not/AZone"), ("UTC", "UTC")] :
          List (String × String)).length ∧
    (∀ (j : Nat) (lab2 tz2 : String) (off : Int),
      ([("London", "Europe/London"), ("Bad", "Not/AZone"), ("UTC", "UTC")] :
          List (String × String))[j]? = some (lab2, tz2) →
      pytzDB tz2 = some off →
      (build_times_dict pytzDB 0
          [("London", "Europe/London"), ("Bad", "Not/AZone"), ("UTC", "UTC")])[j]? =
        some (lab2, { time := format_time (datetimeNow off 0),
                      date := format_date (datetimeNow off 0),
                      iso := pyIsoformat (datetimeNow off 0) })) :=
  c2_invalid_entry_degrades_alone pytzDB 0
    [("London", "Europe/London"), ("Bad", "Not/AZone"), ("UTC", "UTC")]
    1 "Bad" "Not/AZone" (by rfl) (by rfl)

/-- C8: on the mapping `[("UTC", "UTC")]` at the instant
2024-01-01T00:00:00 UTC (1704067200000000 microseconds since the epoch),
`build_times_dict` returns time `"00:00:00"` and date
`"Monday, 01 January 2024"` for the label `"UTC"`. -/
theorem c8_utc_new_year_scenario :
    (build_times_dict pytzDB 1704067200000000 [("UTC", "UTC")]).map
        (fun p => (p.1, p.2.time, p.2.date))
      = [("UTC", "00:00:00", "Monday, 01 January 2024")] := by
  decide

/-- C4 counterexample: the instants 0 and 1 microseconds lie in the same
wall-clock second, yet `build_times_dict` on the static mapping
`[("UTC", "UTC")]` returns different outputs (the `iso` field carries the
microsecond count), so two calls within one second need not be identical
in every field. -/
theorem c4_counterexample_iso_differs :
    (0 : Int).ediv 1000000 = (1 : Int).ediv 1000000 ∧
    build_times_dict pytzDB 0 [("UTC", "UTC")] ≠
      build_times_dict pytzDB 1 [("UTC", "UTC")] := by
  decide

/-- C4 (amended): two calls of `build_times_dict` on a static mapping
within the same wall-clock second agree on the label, the time field and
the date field of every snapshot (only the `iso` field can differ, through
its microsecond part); the embedding is a pure function, so no call
mutates the input mapping. -/
theorem c4_same_second_time_date_agree (db : String → Option Int)
    (t1 t2 : Int) (tzs : List (String × String))
    (hsec : t1.ediv 1000000 = t2.ediv 1000000) :
    (build_times_dict db t1 tzs).map (fun p => (p.1, p.2.time, p.2.date))
      = (build_times_dict db t2 tzs).map (fun p => (p.1, p.2.time, p.2.date)) := by
  unfold build_times_dict
  rw [List.map_map, List.map_map]
  apply List.map_congr_left
  intro p hp
  cases hdb : db p.2 with
  | none => simp [Function.comp_apply, get_time_for_tz, hdb]
  | some off =>
    simp only [Function.comp_apply, get_time_for_tz, hdb, Option.map_some']
    simp [datetimeNow, datetimeOfSeconds, format_time, format_date, hsec]

/-- C4 witness: the amended theorem applied at the instants 0 and 1
microseconds (same second) on the mapping `[("UTC", "UTC")]`. -/
theorem c4_same_second_time_date_agree_witness :
    (build_times_dict pytzDB 0 [("UTC", "UTC")]).map
        (fun p => (p.1, p.2.time, p.2.date))
      = (build_times_dict pytzDB 1 [("UTC", "UTC")]).map
        (fun p => (p.1, p.2.time, p.2.date)) :=
  c4_same_second_time_date_agree pytzDB 0 1 [("UTC", "UTC")] (by decide)

/-- C5: the `/check` reply consists of the title line followed by exactly
one line per tracked label, in the tracked mapping's order (the freshly
built times dict carries the tracked labels in order), each line being
`label ++ ": " ++ time ++ " (" ++ date ++ ")"` for that label's fresh
snapshot, and the reply text joins these lines with newlines. -/
theorem c5_check_reply_shape (db : String → Option Int) (t : Int)
    (tracked : List (String × String)) :
    (check_lines db t tracked).length = tracked.length + 1 ∧
    (check_lines db t tracked).head? = some ("World Clock — " ++ APP_TITLE) ∧
    (build_times_dict db t tracked).map Prod.fst = tracked.map Prod.fst ∧
    (∀ (i : Nat) (q : String × TimeSnapshot),
      (build_times_dict db t tracked)[i]? = some q →
      (check_lines db t tracked)[i + 1]? =
        some (q.1 ++ ": " ++ q.2.time ++ " (" ++ q.2.date ++ ")")) ∧
    check_command_text db t tracked =
      String.intercalate "\n" (check_lines db t tracked) := by
  refine ⟨?_, rfl, build_times_dict_map_fst db t tracked, ?_, rfl⟩
  · simp [check_lines, build_times_dict]
  · intro i q hq
    rw [check_lines, List.getElem?_cons_succ, List.getElem?_map, hq]
    rfl

/-- C3: an alarm of the stored list is in `checkAlarms`' result exactly
when the current `HH:MM` string in its zone equals its stored target
string, and when no stored alarm matches the result is the empty list.
The alarm feature is modelled from the spec; its code is not under
`src/`. -/
theorem c3_checkAlarms_iff_match (db : String → Option Int) (t : Int)
    (alarms : List AlarmEntry) :
    (∀ a ∈ alarms,
      (a ∈ checkAlarms db t alarms ↔ currentHM db t a = some a.targetTime)) ∧
    ((∀ a ∈ alarms, currentHM db t a ≠ some a.targetTime) →
      checkAlarms db t alarms = []) := by
  have hpred : ∀ a : AlarmEntry,
      ((match currentHM db t a with
        | some hm => hm == a.targetTime
        | none => false) = true) ↔ currentHM db t a = some a.targetTime := by
    intro a
    cases hc : currentHM db t a with
    | none => simp
    | some hm => simp [beq_iff_eq]
  constructor
  · intro a ha
    rw [checkAlarms, List.mem_filter]
    constructor
    · rintro ⟨-, hmatch⟩
      exact (hpred a).mp hmatch
    · intro hc
      exact ⟨ha, (hpred a).mpr hc⟩
  · intro hnone
    rw [checkAlarms, List.filter_eq_nil_iff]
    intro a ha
    intro hmatch
    exact hnone a ha ((hpred a).mp hmatch)

/-- C6: once the bot has been started, any sequence of later dashboard
interactions that does not start the bot again (changing the city
selection, adding custom timezones) leaves the captured mapping of the
`/check` closure unchanged: a `/check` reply is still computed over the
label-to-identifier mapping captured at bot-start time. -/
theorem c6_check_uses_start_snapshot (db : String → Option Int) (t : Int)
    (s0 : AppState) (es : List Event) (hnostart : Event.startBot ∉ es) :
    botCheckLines db t (steps db (step db s0 Event.startBot) es)
      = some (check_lines db t (timezones_to_display s0.cities s0.selection)) := by
  rw [botCheckLines, steps_botCaptured db _ es hnostart]
  rfl

/-- C6 witness: the theorem applied to the default state after changing
the selection and adding a custom timezone post-start. -/
theorem c6_check_uses_start_snapshot_witness :
    botCheckLines pytzDB 0
        (steps pytzDB
          (step pytzDB
            { cities := DEFAULT_CITIES, selection := ["UTC", "Tokyo"],
              botCaptured := none }
            Event.startBot)
          [Event.setSelection ["London"], Event.addCustom "Berlin" "Europe/Berlin"])
      = some (check_lines pytzDB 0
          (timezones_to_display DEFAULT_CITIES ["UTC", "Tokyo"])) :=
  c6_check_uses_start_snapshot pytzDB 0
    { cities := DEFAULT_CITIES, selection := ["UTC", "Tokyo"],
      botCaptured := none }
    [Event.setSelection ["London"], Event.addCustom "Berlin" "Europe/Berlin"]
    (by decide)

/-- C7: when the add button is pressed with a nonempty stripped identifier
that the zone database cannot resolve, the add action leaves the tracked
mapping unchanged and surfaces the invalid-timezone error message. -/
theorem c7_invalid_add_rejected (db : String → Option Int)
    (cities : List (String × String)) (customLabel customTz : String)
    (hne : (pyStrip customTz) ≠ "") (hbad : db (pyStrip customTz) = none) :
    add_custom_timezone db cities customLabel customTz true =
      (cities, some SidebarMsg.invalidTz) := by
  rw [add_custom_timezone]
  rw [if_pos (by simp [hne]), hbad]

/-- C7 witness: adding identifier `"Not/AZone"` to the default mapping is
rejected and the mapping is unchanged. -/
theorem c7_invalid_add_rejected_witness :
    add_custom_timezone pytzDB DEFAULT_CITIES "Nowhere" "Not/AZone" true =
      (DEFAULT_CITIES, some SidebarMsg.invalidTz) :=
  c7_invalid_add_rejected pytzDB DEFAULT_CITIES "Nowhere" "Not/AZone"
    (by decide) (by rfl)

/-- C9: when the add button is pressed with a whitespace-only label and a
nonempty stripped identifier that the zone database resolves, the entry is
stored under the stripped identifier string as its key, mapping to the
stripped identifier. -/
theorem c9_blank_label_defaults_to_identifier (db : String → Option Int)
    (cities : List (String × String)) (customLabel customTz : String)
    (off : Int) (hlbl : (pyStrip customLabel) = "") (hne : (pyStrip customTz) ≠ "")
    (hres : db (pyStrip customTz) = some off) :
    (add_custom_timezone db cities customLabel customTz true).1 =
      dictSet cities (pyStrip customTz) (pyStrip customTz) ∧
    dictGet ((add_custom_timezone db cities customLabel customTz true).1)
      (pyStrip customTz) = some (pyStrip customTz) := by
  have hstep :
      (add_custom_timezone db cities customLabel customTz true).1 =
        dictSet cities (pyStrip customTz) (pyStrip customTz) := by
    rw [add_custom_timezone, if_pos (by simp [hne]), hres]
    simp [hlbl]
  exact ⟨hstep, hstep ▸ dictGet_dictSet cities (pyStrip customTz) (pyStrip customTz)⟩

/-- C9 witness: adding `" Europe/Berlin "` with the whitespace label
`"  "` stores key `"Europe/Berlin"` mapped to `"Europe/Berlin"`. -/
theorem c9_blank_label_defaults_to_identifier_witness :
    (add_custom_timezone pytzDB DEFAULT_CITIES "  " " Europe/Berlin " true).1 =
      dictSet DEFAULT_CITIES (pyStrip " Europe/Berlin ") (pyStrip " Europe/Berlin ") ∧
    dictGet ((add_custom_timezone pytzDB DEFAULT_CITIES "  " " Europe/Berlin " true).1)
      (pyStrip " Europe/Berlin ") = some (pyStrip " Europe/Berlin ") :=
  c9_blank_label_defaults_to_identifier pytzDB DEFAULT_CITIES
    "  " " Europe/Berlin " 3600 (by decide) (by decide) (by rfl)

/-- C10: the add action keeps the tracked mapping's labels duplicate-free,
and when the computed key is already a stored label the add overwrites
that label's identifier in place: the label list is unchanged (nothing is
appended) and the key now maps to the new stripped identifier. -/
theorem c10_duplicate_label_overwrites (db : String → Option Int)
    (cities : List (String × String)) (customLabel customTz : String)
    (btn : Bool) (hnodup : (cities.map Prod.fst).Nodup) :
    (((add_custom_timezone db cities customLabel customTz btn).1).map
        Prod.fst).Nodup ∧
    (btn = true → (pyStrip customTz) ≠ "" → (db (pyStrip customTz)).isSome = true →
      (if (pyStrip customLabel) = "" then (pyStrip customTz) else (pyStrip customLabel)) ∈
        cities.map Prod.fst →
      ((add_custom_timezone db cities customLabel customTz btn).1).map Prod.fst
          = cities.map Prod.fst ∧
      dictGet ((add_custom_timezone db cities customLabel customTz btn).1)
          (if (pyStrip customLabel) = "" then (pyStrip customTz) else (pyStrip customLabel))
        = some (pyStrip customTz)) := by
  constructor
  · rw [add_custom_timezone]
    by_cases hcond : (btn && (pyStrip customTz) != "") = true
    · rw [if_pos hcond]
      cases hdb : db (pyStrip customTz) with
      | none => exact hnodup
      | some off => exact dictSet_nodup cities _ _ hnodup
    · rw [if_neg hcond]
      exact hnodup
  · intro hbtn hne hres hmem
    obtain ⟨off, hoff⟩ := Option.isSome_iff_exists.mp hres
    have hstep :
        (add_custom_timezone db cities customLabel customTz btn).1 =
          dictSet cities
            (if (pyStrip customLabel) = "" then (pyStrip customTz) else (pyStrip customLabel))
            (pyStrip customTz) := by
      rw [add_custom_timezone, hbtn, if_pos (by simp [hne]), hoff]
    rw [hstep]
    exact ⟨dictSet_map_fst_of_mem cities _ _ ((any_key_iff_mem cities _).mpr hmem),
      dictGet_dictSet cities _ _⟩

/-- C10 witness: adding identifier `"Asia/Jakarta"` under the existing
label `"Tokyo"` keeps the labels duplicate-free; overwriting is exercised
through the second conjunct at that key. -/
theorem c10_duplicate_label_overwrites_witness :
    (((add_custom_timezone pytzDB DEFAULT_CITIES "Tokyo" "Asia/Jakarta" true).1).map
        Prod.fst).Nodup ∧
    (true = true → (pyStrip "Asia/Jakarta") ≠ "" →
      (pytzDB (pyStrip "Asia/Jakarta")).isSome = true →
      (if (pyStrip "Tokyo") = "" then (pyStrip "Asia/Jakarta") else (pyStrip "Tokyo")) ∈
        DEFAULT_CITIES.map Prod.fst →
      ((add_custom_timezone pytzDB DEFAULT_CITIES "Tokyo" "Asia/Jakarta" true).1).map
          Prod.fst = DEFAULT_CITIES.map Prod.fst ∧
      dictGet ((add_custom_timezone pytzDB DEFAULT_CITIES "Tokyo" "Asia/Jakarta" true).1)
          (if (pyStrip "Tokyo") = "" then (pyStrip "Asia/Jakarta") else (pyStrip "Tokyo"))
        = some (pyStrip "Asia/Jakarta")) :=
  c10_duplicate_label_overwrites pytzDB DEFAULT_CITIES "Tokyo" "Asia/Jakarta"
    true (by decide)
